import Mathlib

/-!
# Verification of `django-dataclass-field`

A shallow embedding of `src/django_dataclass_field/fields.py` (plus the
example record type of `src/examples/car_app/models.py`) and proofs about it.

Modelling conventions:

* Python runtime values flowing through the field classes are modelled by
  `PyValue` (a tagged variant covering `None`, `bool`, `int`, `str`, the
  `JSONString` `str` subclass, `list`, `tuple`, `dict`, and dataclass
  instances).  Numbers are restricted to integers: no claim involves float
  values, and floating point is outside the embedding.
* `json.loads` / `json.dumps` (external primitive services per the spec) are
  modelled by an executable JSON parser and serializer over `PyValue`.  The
  parser accepts the JSON fragment used by the repository (null, booleans,
  integer numerals, strings with the common escapes, arrays, objects);
  float literals and `\u` escapes are outside the model.
* Raised exceptions are modelled with `Except PyErr`; each Python exception
  class that the code distinguishes gets its own `PyErr` constructor.
* Library functions the code calls (`dacite.from_dict`, Django form
  `Field.has_changed`, Django `JSONField.from_db_value` /
  `get_prep_value`) are embedded from their library sources, since the
  code's behaviour flows through them.
-/

set_option maxRecDepth 4000

mutual
/-- A Python runtime value, as flowing through the field classes. -/
inductive PyValue where
  | none
  | bool (b : Bool)
  | int (n : Int)
  | str (s : String)
  /-- `django.forms.fields.JSONString`: a `str` subclass used to tag a value
  that is valid JSON denoting a string. -/
  | jsonString (s : String)
  | list (xs : PyList)
  | tuple (xs : PyList)
  | dict (kvs : PyDict)
  /-- A dataclass instance: class name plus ordered field values. -/
  | dcInst (cls : String) (kvs : PyDict)
  deriving DecidableEq

inductive PyList where
  | nil
  | cons (v : PyValue) (rest : PyList)
  deriving DecidableEq

inductive PyDict where
  | nil
  | cons (k : String) (v : PyValue) (rest : PyDict)
  deriving DecidableEq
end

/-- Convert a Lean list of values to a `PyList`. -/
def PyList.ofList : List PyValue → PyList
  | [] => .nil
  | v :: vs => .cons v (PyList.ofList vs)

/-- Convert a Lean association list to a `PyDict`. -/
def PyDict.ofList : List (String × PyValue) → PyDict
  | [] => .nil
  | (k, v) :: rest => .cons k v (PyDict.ofList rest)

/-- First-match key lookup, as Python `d[k]` / `k in d` for dicts with
unique keys. -/
def pyLookup : PyDict → String → Option PyValue
  | .nil, _ => Option.none
  | .cons k v rest, key => if k = key then Option.some v else pyLookup rest key

/-- Python dict assignment `d[k] = v`: overwrite in place when the key is
present, append otherwise. -/
def pySet : PyDict → String → PyValue → PyDict
  | .nil, key, val => .cons key val .nil
  | .cons k v rest, key, val =>
      if k = key then .cons k val rest else .cons k v (pySet rest key val)

/-- The keys of a dict, in order. -/
def pyKeys : PyDict → List String
  | .nil => []
  | .cons k _ rest => k :: pyKeys rest

/-- `len` of a dict. -/
def pyDictLen : PyDict → Nat
  | .nil => 0
  | .cons _ _ rest => pyDictLen rest + 1

/-- Membership of a value in a `PyList` (plain structural equality). -/
def pyListContains : PyList → PyValue → Bool
  | .nil, _ => false
  | .cons v rest, w => v == w || pyListContains rest w

mutual
/-- Python `==` on the modelled values: `True == 1`, `False == 0`,
`JSONString` compares equal to `str` with the same content, dict comparison
ignores key order, a `tuple` never equals a `list`, dataclass instances
compare by class and fields. -/
def pyEq (a b : PyValue) : Bool :=
  match a, b with
  | .none, .none => true
  | .bool a, .bool b => a == b
  | .bool a, .int n => (a && n == 1) || (!a && n == 0)
  | .int n, .bool a => (a && n == 1) || (!a && n == 0)
  | .int a, .int b => a == b
  | .str a, .str b => a == b
  | .str a, .jsonString b => a == b
  | .jsonString a, .str b => a == b
  | .jsonString a, .jsonString b => a == b
  | .list a, .list b => pyEqList a b
  | .tuple a, .tuple b => pyEqList a b
  | .dict a, .dict b => pyDictLen a == pyDictLen b && pyEqDictIncl a b
  | .dcInst c a, .dcInst d b => c == d && pyEqDict a b
  | _, _ => false
termination_by structural a

def pyEqList (a b : PyList) : Bool :=
  match a, b with
  | .nil, .nil => true
  | .cons a as, .cons b bs => pyEq a b && pyEqList as bs
  | _, _ => false
termination_by structural a

/-- Every pair of the first dict is found (by key) in the second with an
equal value. -/
def pyEqDictIncl (a other : PyDict) : Bool :=
  match a with
  | .nil => true
  | .cons k v rest =>
      (match pyLookup other k with
       | Option.some w => pyEq v w
       | Option.none => false)
      && pyEqDictIncl rest other
termination_by structural a

/-- Positional dict equality, used for dataclass instances whose field
order is fixed by the class. -/
def pyEqDict (a b : PyDict) : Bool :=
  match a, b with
  | .nil, .nil => true
  | .cons k v rest, .cons k2 v2 rest2 => k == k2 && pyEq v v2 && pyEqDict rest rest2
  | _, _ => false
termination_by structural a
end

example : pyEq (.dict (PyDict.ofList [("a", .int 1), ("b", .int 2)]))
               (.dict (PyDict.ofList [("b", .int 2), ("a", .int 1)])) = true := rfl
example : pyEq (.tuple (PyList.ofList [.int 1])) (.list (PyList.ofList [.int 1])) = false := rfl
example : pyEq (.bool true) (.int 1) = true := rfl

deriving instance DecidableEq for Except

/-- The Python exceptions the code distinguishes. -/
inductive PyErr where
  | validationError (message : String) (code : String) (paramsValue : PyValue)
  | jsonDecodeError
  /-- `dacite.MissingValueError`. -/
  | missingValueError (fieldName : String)
  /-- `dacite.WrongTypeError`. -/
  | wrongTypeError (fieldName : String)
  | valueError (message : String)
  | typeError (message : String)
  | keyError (key : String)
  deriving DecidableEq

/-! ## The `json` module (external primitive service)

`json.loads` and `json.dumps` are modelled executably.  The parser covers
the JSON fragment the repository exercises: `null`, booleans, integer
numerals, strings with the one-character escapes, arrays and objects.
Float literals and `\u` escapes are outside the model (no claim involves
them); on such input the modelled parser reports a decode error. -/

def isJsonWs : Char → Bool
  | ' ' => true
  | '\t' => true
  | '\n' => true
  | '\x0d' => true
  | _ => false

def skipWs : List Char → List Char
  | [] => []
  | c :: cs => if isJsonWs c then skipWs cs else c :: cs

def unescapeJson : Char → Option Char
  | 'n' => some '\n'
  | 't' => some '\t'
  | 'r' => some '\x0d'
  | 'b' => some '\x08'
  | 'f' => some '\x0c'
  | '/' => some '/'
  | '"' => some '"'
  | '\\' => some '\\'
  | _ => Option.none

/-- Parse the body of a JSON string after its opening quote; returns the
content and the remaining characters after the closing quote. -/
def parseStringChars : List Char → Option (List Char × List Char)
  | [] => Option.none
  | '"' :: rest => some ([], rest)
  | '\\' :: e :: rest =>
      match unescapeJson e with
      | some c => (parseStringChars rest).map (fun p => (c :: p.1, p.2))
      | Option.none => Option.none
  | c :: rest => (parseStringChars rest).map (fun p => (c :: p.1, p.2))

def takeDigits : List Char → (List Char × List Char)
  | [] => ([], [])
  | c :: cs =>
      if c.isDigit then
        let p := takeDigits cs
        (c :: p.1, p.2)
      else ([], c :: cs)

def digitsToNat (ds : List Char) : Nat :=
  ds.foldl (fun n c => n * 10 + (c.toNat - 48)) 0

/-- Parse a JSON integer numeral: optional minus, then `0` or a nonzero
digit followed by digits (the `0 | [1-9][0-9]*` rule of the JSON grammar). -/
def parseIntNumeral (cs : List Char) : Option (Int × List Char) :=
  match cs with
  | '-' :: rest =>
      (parseIntNumeral rest).bind (fun p =>
        match p.1 with
        | Int.ofNat n => some (-(Int.ofNat n), p.2)
        | _ => Option.none)
  | '0' :: rest => some (0, rest)
  | c :: _ =>
      if c.isDigit then
        let p := takeDigits cs
        some (Int.ofNat (digitsToNat p.1), p.2)
      else Option.none
  | [] => Option.none

mutual
def parseValue (fuel : Nat) (cs : List Char) : Option (PyValue × List Char) :=
  match fuel with
  | 0 => Option.none
  | fuel + 1 =>
    match skipWs cs with
    | 'n' :: 'u' :: 'l' :: 'l' :: rest => some (.none, rest)
    | 't' :: 'r' :: 'u' :: 'e' :: rest => some (.bool true, rest)
    | 'f' :: 'a' :: 'l' :: 's' :: 'e' :: rest => some (.bool false, rest)
    | '"' :: rest => (parseStringChars rest).map (fun p => (.str (String.mk p.1), p.2))
    | '[' :: rest =>
        (match skipWs rest with
         | ']' :: r2 => some (.list .nil, r2)
         | r2 => (parseItems fuel r2).map (fun p => (.list p.1, p.2)))
    | '\x7b' :: rest =>
        (match skipWs rest with
         | '\x7d' :: r2 => some (.dict .nil, r2)
         | r2 => (parseMembers fuel .nil r2).map (fun p => (.dict p.1, p.2)))
    | rest => (parseIntNumeral rest).map (fun p => (.int p.1, p.2))

/-- Parse the comma-separated items of a non-empty array, including the
closing bracket. -/
def parseItems (fuel : Nat) (cs : List Char) : Option (PyList × List Char) :=
  match fuel with
  | 0 => Option.none
  | fuel + 1 =>
    (parseValue fuel cs).bind (fun p =>
      match skipWs p.2 with
      | ',' :: r2 => (parseItems fuel r2).map (fun q => (PyList.cons p.1 q.1, q.2))
      | ']' :: r2 => some (PyList.cons p.1 .nil, r2)
      | _ => Option.none)

/-- Parse the members of a non-empty object, including the closing brace.
Duplicate keys overwrite in place, as Python builds the dict by successive
assignment. -/
def parseMembers (fuel : Nat) (acc : PyDict) (cs : List Char) : Option (PyDict × List Char) :=
  match fuel with
  | 0 => Option.none
  | fuel + 1 =>
    match skipWs cs with
    | '"' :: rest =>
        (parseStringChars rest).bind (fun kp =>
          match skipWs kp.2 with
          | ':' :: r2 =>
              (parseValue fuel r2).bind (fun vp =>
                let acc2 := pySet acc (String.mk kp.1) vp.1
                match skipWs vp.2 with
                | ',' :: r3 => parseMembers fuel acc2 r3
                | '\x7d' :: r3 => some (acc2, r3)
                | _ => Option.none)
          | _ => Option.none)
    | _ => Option.none
end

/-- `json.loads`: parse a complete document, requiring only whitespace to
remain; `Option.none` models a raised `json.JSONDecodeError`. -/
def json.loads (s : String) : Option PyValue :=
  match parseValue (s.data.length * 2 + 4) s.data with
  | some (v, rest) => if skipWs rest = [] then some v else Option.none
  | Option.none => Option.none

example : json.loads "\x7b\"b\": 2, \"a\": 1\x7d"
    = some (.dict (PyDict.ofList [("b", .int 2), ("a", .int 1)])) := rfl
example : json.loads "\x7bnot json" = Option.none := rfl
example : json.loads "   " = Option.none := rfl
example : json.loads "" = Option.none := rfl
example : json.loads "[1,2]" = some (.list (PyList.ofList [.int 1, .int 2])) := rfl
example : json.loads " \"abc\" " = some (.str "abc") := rfl
example : json.loads "-12" = some (.int (-12)) := rfl
example : json.loads "012" = Option.none := rfl

/-! ### `json.dumps` -/

def escapeJsonChar : Char → List Char
  | '"' => ['\\', '"']
  | '\\' => ['\\', '\\']
  | c => [c]

def escapeJsonStr (s : String) : String :=
  String.mk (s.data.foldr (fun c acc => escapeJsonChar c ++ acc) [])

def quoteJson (s : String) : String :=
  "\"" ++ escapeJsonStr s ++ "\""

def joinSep (sep : String) : List String → String
  | [] => ""
  | [x] => x
  | x :: xs => x ++ sep ++ joinSep sep xs

def charListLt : List Char → List Char → Bool
  | [], [] => false
  | [], _ :: _ => true
  | _ :: _, [] => false
  | c :: cs, d :: ds =>
      if c.toNat < d.toNat then true
      else if d.toNat < c.toNat then false
      else charListLt cs ds

/-- Insert a rendered key/value pair into a list sorted by key (code-point
order, as Python string comparison). -/
def insertPair (p : String × String) : List (String × String) → List (String × String)
  | [] => [p]
  | q :: qs => if charListLt p.1.data q.1.data then p :: q :: qs else q :: insertPair p qs

def sortPairs (ps : List (String × String)) : List (String × String) :=
  ps.foldr insertPair []

mutual
/-- `json.dumps` with the default separators; `sortKeys` models
`sort_keys=True`.  A dataclass instance is not JSON-serializable: Python
raises `TypeError`.  (Non-ASCII and control characters are not escaped by
the model; no claim involves them.) -/
def json.dumps (sortKeys : Bool) (v : PyValue) : Except PyErr String :=
  match v with
  | .none => .ok "null"
  | .bool b => .ok (if b then "true" else "false")
  | .int n => .ok (toString n)
  | .str s => .ok (quoteJson s)
  | .jsonString s => .ok (quoteJson s)
  | .list xs => do
      let ps ← json.dumpsItems sortKeys xs
      .ok ("[" ++ joinSep ", " ps ++ "]")
  | .tuple xs => do
      let ps ← json.dumpsItems sortKeys xs
      .ok ("[" ++ joinSep ", " ps ++ "]")
  | .dict kvs => do
      let ps ← json.dumpsPairs sortKeys kvs
      let ps2 := if sortKeys then sortPairs ps else ps
      .ok ("\x7b" ++ joinSep ", " (ps2.map (fun p => p.2)) ++ "\x7d")
  | .dcInst c _ => .error (.typeError ("Object of type " ++ c ++ " is not JSON serializable"))
termination_by structural v

def json.dumpsItems (sortKeys : Bool) (xs : PyList) : Except PyErr (List String) :=
  match xs with
  | .nil => .ok []
  | .cons v rest => do
      let s ← json.dumps sortKeys v
      let r ← json.dumpsItems sortKeys rest
      .ok (s :: r)
termination_by structural xs

/-- Render each member as `(key, "key": value)`; sorting by key afterwards
equals Python sorting the items before rendering, since each member is
rendered independently. -/
def json.dumpsPairs (sortKeys : Bool) (kvs : PyDict) : Except PyErr (List (String × String)) :=
  match kvs with
  | .nil => .ok []
  | .cons k v rest => do
      let s ← json.dumps sortKeys v
      let r ← json.dumpsPairs sortKeys rest
      .ok ((k, quoteJson k ++ ": " ++ s) :: r)
termination_by structural kvs
end

example : json.dumps true (.dict (PyDict.ofList [("b", .int 2), ("a", .int 1)]))
    = .ok "\x7b\"a\": 1, \"b\": 2\x7d" := rfl
example : json.dumps true (.tuple (PyList.ofList [.int 1, .int 2])) = .ok "[1, 2]" := rfl
example : json.dumps false (.int (-3)) = .ok "-3" := rfl

/-! ## `DataClassFormField` (the Form Field Adapter) -/

/-- `django.core.validators.EMPTY_VALUES`, which `forms.Field.empty_values`
copies: `(None, "", [], (), \x7b\x7d)`. -/
def emptyValues : List PyValue :=
  [PyValue.none, PyValue.str "", PyValue.list PyList.nil,
   PyValue.tuple PyList.nil, PyValue.dict PyDict.nil]

/-- Python `value in self.empty_values`: membership by `==`. -/
def isEmptyValue (v : PyValue) : Bool :=
  emptyValues.any (fun e => pyEq v e)

/-- The overridden `default_error_messages["invalid"]` of
`DataClassFormField` (fields.py lines 26-28). -/
def invalidJsonMsg : String := "Enter valid JSON representation of the Dataclass."

/-- `DataClassFormField.to_python` (fields.py lines 38-56), with the default
decoder.  `disabled` is the form-field state.  The `isinstance` passthrough
covers `list`, `dict`, `int` (hence `bool`, a Python `int` subclass),
`float` (outside the model) and `JSONString`; other non-string values reach
`json.loads`, which raises `TypeError` for non-string input. -/
def DataClassFormField.to_python (disabled : Bool) (value : PyValue) : Except PyErr PyValue :=
  if disabled then .ok value
  else if isEmptyValue value then .ok PyValue.none
  else
    match value with
    | .list _ => .ok value
    | .dict _ => .ok value
    | .int _ => .ok value
    | .bool _ => .ok value
    | .jsonString _ => .ok value
    | .str s =>
        (match json.loads s with
         | Option.none => .error (.validationError invalidJsonMsg "invalid" value)
         | some converted =>
             match converted with
             | .str t => .ok (.jsonString t)
             | c => .ok c)
    | _ => .error (.typeError "the JSON object must be str, bytes or bytearray")

/-- `django.forms.Field.has_changed` with `self.to_python` dispatching to
`DataClassFormField.to_python` (JSON fields define no `_coerce`): disabled
fields never change; only `ValidationError` is caught; `None` is normalized
to `""` on both sides before the `!=` comparison. -/
def forms.Field.has_changed (disabled : Bool) (initial data : PyValue) : Except PyErr Bool :=
  if disabled then .ok false
  else
    match DataClassFormField.to_python disabled data with
    | .error (.validationError _ _ _) => .ok true
    | .error e => .error e
    | .ok d =>
        let iv := match initial with | PyValue.none => PyValue.str "" | v => v
        let dv := match d with | PyValue.none => PyValue.str "" | v => v
        .ok (!pyEq iv dv)

/-- `DataClassFormField.has_changed` (fields.py lines 75-82): delegate to
the generic check; when it reports unchanged, compare the sorted-keys JSON
serializations of `initial` and `to_python(data)`. -/
def DataClassFormField.has_changed (disabled : Bool) (initial data : PyValue) :
    Except PyErr Bool := do
  let sup ← forms.Field.has_changed disabled initial data
  if sup then
    return true
  else
    let s1 ← json.dumps true initial
    let d ← DataClassFormField.to_python disabled data
    let s2 ← json.dumps true d
    return (s1 != s2)

example : DataClassFormField.to_python false (.str "") = .ok .none := rfl
example : DataClassFormField.to_python false .none = .ok .none := rfl
example : DataClassFormField.to_python false (.str "   ")
    = .error (.validationError invalidJsonMsg "invalid" (.str "   ")) := rfl
example : DataClassFormField.to_python false (.dict .nil) = .ok .none := rfl
example : DataClassFormField.to_python false (.str "\x7b\x7d") = .ok (.dict .nil) := rfl
example : DataClassFormField.has_changed false
    (.dict (PyDict.ofList [("a", .int 1), ("b", .int 2)]))
    (.str "\x7b\"b\": 2, \"a\": 1\x7d") = .ok false := rfl
example : DataClassFormField.has_changed false
    (.tuple (PyList.ofList [.int 1, .int 2])) (.str "[1, 2]") = .ok true := rfl

/-! ## Record Types (dataclasses) and `dacite.from_dict` -/

/-- The builtin classes a field annotation can evaluate to in the modelled
universe. -/
inductive PyType where
  | tStr | tInt | tFloat | tBool | tDict | tList | tNoneType
  | tOther (qualname : String)
  deriving DecidableEq

/-- A field annotation: either the evaluated class object (the default for
a module without `from __future__ import annotations`, as in
`examples/car_app/models.py`) or a string annotation. -/
inductive Ann where
  | cls (t : PyType)
  | strA (s : String)
  deriving DecidableEq

/-- Python `str()` of a class object, e.g. `str(int) == "<class 'int'>"`. -/
def pyTypeStr : PyType → String
  | .tStr => "<class \x27str\x27>"
  | .tInt => "<class \x27int\x27>"
  | .tFloat => "<class \x27float\x27>"
  | .tBool => "<class \x27bool\x27>"
  | .tDict => "<class \x27dict\x27>"
  | .tList => "<class \x27list\x27>"
  | .tNoneType => "<class \x27NoneType\x27>"
  | .tOther q => "<class \x27" ++ q ++ "\x27>"

/-- `str(dc_field.type)`, as `generate_schema` computes it. -/
def annStr : Ann → String
  | .cls t => pyTypeStr t
  | .strA s => s

/-- One entry of `__dataclass_fields__`: name, annotation, the `default`
(`Option.none` models `dataclasses.MISSING`, which is also what a
`default_factory` field carries in `.default`), and the `init` flag. -/
structure DCField where
  name : String
  ann : Ann
  default : Option PyValue
  init : Bool
  deriving DecidableEq

/-- A Record Type: class name plus ordered field declarations. -/
structure DataClass where
  className : String
  fields : List DCField
  deriving DecidableEq

/-- Resolution of a string annotation by `typing.get_type_hints`, for the
names the scalar universe knows. -/
def resolveAnnStr (s : String) : PyType :=
  if s = "str" then .tStr
  else if s = "int" then .tInt
  else if s = "float" then .tFloat
  else if s = "bool" then .tBool
  else if s = "dict" then .tDict
  else if s = "list" then .tList
  else if s = "None" then .tNoneType
  else .tOther s

/-- `dacite`'s `is_instance` check against a class, with Python subclass
relations: `bool` is an `int`, `JSONString` is a `str`. -/
def typeMatches : PyType → PyValue → Bool
  | .tStr, .str _ => true
  | .tStr, .jsonString _ => true
  | .tInt, .int _ => true
  | .tInt, .bool _ => true
  | .tBool, .bool _ => true
  | .tDict, .dict _ => true
  | .tList, .list _ => true
  | .tNoneType, .none => true
  | _, _ => false

def annMatches (a : Ann) (v : PyValue) : Bool :=
  match a with
  | .cls t => typeMatches t v
  | .strA s => typeMatches (resolveAnnStr s) v

/-- Substring containment over character lists, for Python `in` on `str`. -/
def containsSub (needle : List Char) : List Char → Bool
  | [] => needle.isEmpty
  | c :: rest => needle.isPrefixOf (c :: rest) || containsSub needle rest

/-- Membership by Python `==`, for `in` on sequences. -/
def pyListMem (xs : PyList) (v : PyValue) : Bool :=
  match xs with
  | .nil => false
  | .cons w rest => pyEq w v || pyListMem rest v

/-- Python `field.name in data`, as dacite tests it: key membership for a
mapping, substring search for a string, element membership for a sequence;
`in` on non-iterable data raises `TypeError`. -/
def pyInOp (k : String) (data : PyValue) : Except PyErr Bool :=
  match data with
  | .dict kvs => .ok (pyLookup kvs k).isSome
  | .str s => .ok (containsSub k.data s.data)
  | .jsonString s => .ok (containsSub k.data s.data)
  | .list xs => .ok (pyListMem xs (.str k))
  | .tuple xs => .ok (pyListMem xs (.str k))
  | _ => .error (.typeError "argument is not iterable")

/-- Python `data[field.name]`: string-keyed item access; only a mapping
supports it (sequence and string indices must be integers). -/
def pyGetStrItem (data : PyValue) (k : String) : Except PyErr PyValue :=
  match data with
  | .dict kvs =>
      (match pyLookup kvs k with
       | some v => .ok v
       | Option.none => .error (.keyError k))
  | _ => .error (.typeError "indices must be integers, not str")

/-- The per-field loop of `dacite.from_dict` (non-strict config, so `data`
itself is only touched through `field.name in data` and `data[field.name]`):
a present key is fetched and type-checked (`WrongTypeError` on mismatch);
an absent key falls back to the field default, raises `MissingValueError`
for an `init` field without one, and is skipped (dacite `continue`s) for a
non-`init` field without one.  Values are collected in declaration order. -/
def daciteBuild (data : PyValue) : List DCField → Except PyErr PyDict
  | [] => .ok .nil
  | f :: fs =>
      match pyInOp f.name data with
      | .error e => .error e
      | .ok true =>
          (match pyGetStrItem data f.name with
           | .error e => .error e
           | .ok v =>
               if annMatches f.ann v then
                 (daciteBuild data fs).map (fun rest => .cons f.name v rest)
               else .error (.wrongTypeError f.name))
      | .ok false =>
          match f.default with
          | some d => (daciteBuild data fs).map (fun rest => .cons f.name d rest)
          | Option.none =>
              if f.init then .error (.missingValueError f.name)
              else daciteBuild data fs

/-- `dacite.from_dict(data_class, data, config)` with the default
non-strict config.  The `Config(cast=[Enum, Dict])` used on the read path
only affects enum-typed fields, which are outside the modelled type
universe, so one definition serves both call sites. -/
def dacite.from_dict (dc : DataClass) (data : PyValue) : Except PyErr PyValue :=
  (daciteBuild data dc.fields).map (fun vals => PyValue.dcInst dc.className vals)

mutual
/-- `dataclasses.asdict`, the deep conversion applied to each value:
dataclass instances become dicts recursively; containers are rebuilt. -/
def dataclasses.asdict (v : PyValue) : PyValue :=
  match v with
  | .dcInst _ kvs => .dict (asdictDict kvs)
  | .dict kvs => .dict (asdictDict kvs)
  | .list xs => .list (asdictList xs)
  | .tuple xs => .tuple (asdictList xs)
  | w => w
termination_by structural v

def asdictList (xs : PyList) : PyList :=
  match xs with
  | .nil => .nil
  | .cons v rest => .cons (dataclasses.asdict v) (asdictList rest)
termination_by structural xs

def asdictDict (kvs : PyDict) : PyDict :=
  match kvs with
  | .nil => .nil
  | .cons k v rest => .cons k (dataclasses.asdict v) (asdictDict rest)
termination_by structural kvs
end

/-! ## `DataClassField` (the Column Codec) -/

/-- The uniform type-mismatch message
`f"Value must be of type \x7bself.data_class.__name__\x7d"`. -/
def uniformMsg (dc : DataClass) : String :=
  "Value must be of type " ++ dc.className

/-- `isinstance(value, self.data_class)`. -/
def isInstanceOf (dc : DataClass) (v : PyValue) : Bool :=
  match v with
  | .dcInst c _ => c == dc.className
  | _ => false

/-- The `try: from_dict ... except` block of `DataClassField.to_python`
(fields.py lines 136-149): `ValidationError` and `MissingValueError` are
re-raised as the uniform `ValidationError`; any other exception (notably
dacite's `WrongTypeError`) propagates. -/
def DataClassField.hydrate (dc : DataClass) (raw obj : PyValue) : Except PyErr PyValue :=
  match dacite.from_dict dc obj with
  | .ok r => .ok r
  | .error (.validationError _ _ _) => .error (.validationError (uniformMsg dc) "invalid" raw)
  | .error (.missingValueError _) => .error (.validationError (uniformMsg dc) "invalid" raw)
  | .error e => .error e

/-- `DataClassField.to_python` (fields.py lines 127-149).  Note that the
`json.loads(value)` call for string input sits outside the `try` block, so
a `json.JSONDecodeError` propagates. -/
def DataClassField.to_python (dc : DataClass) (value : PyValue) : Except PyErr PyValue :=
  match value with
  | PyValue.none => .ok PyValue.none
  | v =>
      if isInstanceOf dc v then .ok v
      else
        match v with
        | .str s =>
            (match json.loads s with
             | Option.none => .error PyErr.jsonDecodeError
             | some obj => DataClassField.hydrate dc v obj)
        | .jsonString s =>
            (match json.loads s with
             | Option.none => .error PyErr.jsonDecodeError
             | some obj => DataClassField.hydrate dc v obj)
        | obj => DataClassField.hydrate dc v obj

/-- `django.db.models.JSONField.from_db_value`: parse the stored text,
returning the raw string unchanged when it is not valid JSON. -/
def JSONField.from_db_value (value : Option String) : Option PyValue :=
  match value with
  | Option.none => Option.none
  | some s =>
      match json.loads s with
      | some v => some v
      | Option.none => some (.str s)

/-- Python `x is None`. -/
def pyIsNone (v : PyValue) : Bool :=
  match v with
  | PyValue.none => true
  | _ => false

/-- `DataClassField.from_db_value` (fields.py lines 119-125): take what the
parent parsed; `if from_db is None: return from_db` covers both a NULL
column and stored text that parses to JSON `null`; everything else is
hydrated with no exception handling, so dacite errors propagate. -/
def DataClassField.from_db_value (dc : DataClass) (value : Option String) :
    Except PyErr PyValue :=
  match JSONField.from_db_value value with
  | Option.none => .ok PyValue.none
  | some fromDb =>
      if pyIsNone fromDb then .ok fromDb
      else dacite.from_dict dc fromDb

/-- `django.db.models.JSONField.get_prep_value`: `None` passes through,
anything else is JSON-serialized to the stored text. -/
def JSONField.get_prep_value (v : PyValue) : Except PyErr PyValue :=
  match v with
  | PyValue.none => .ok PyValue.none
  | w => (json.dumps false w).map PyValue.str

/-- `DataClassField.get_prep_value` (fields.py lines 162-182): a Record
Instance is `asdict`-ed and handed to the parent; any other non-`None`
value is first gated through `to_python` and then handed to the parent in
its original form. -/
def DataClassField.get_prep_value (dc : DataClass) (value : PyValue) :
    Except PyErr PyValue :=
  match value with
  | PyValue.none => .ok PyValue.none
  | v =>
      if isInstanceOf dc v then JSONField.get_prep_value (dataclasses.asdict v)
      else do
        let _ ← DataClassField.to_python dc v
        JSONField.get_prep_value v

/-- The example Record Type `Car` of `src/examples/car_app/models.py`; the
module does not use string annotations, so each `dc_field.type` is the
class object itself. -/
def Car : DataClass :=
  { className := "Car",
    fields := [
      { name := "brand", ann := .cls .tStr, default := Option.none, init := true },
      { name := "model", ann := .cls .tStr, default := Option.none, init := true },
      { name := "year", ann := .cls .tInt, default := Option.none, init := true },
      { name := "color", ann := .cls .tStr, default := Option.none, init := true }] }

/-- `Car(brand="Ford", model="Focus", year=2020, color="red")`. -/
def fordFocus : PyDict :=
  PyDict.ofList [("brand", .str "Ford"), ("model", .str "Focus"),
                 ("year", .int 2020), ("color", .str "red")]

example : DataClassField.to_python Car (dataclasses.asdict (.dcInst "Car" fordFocus))
    = .ok (.dcInst "Car" fordFocus) := rfl
example : DataClassField.to_python Car (.str "\x7bnot json") = .error PyErr.jsonDecodeError := rfl
example : DataClassField.from_db_value Car (some "\x7b\"brand\": \"Ford\"\x7d")
    = .error (.missingValueError "model") := rfl
example : DataClassField.from_db_value Car (some "null") = .ok PyValue.none := rfl
example : DataClassField.from_db_value Car Option.none = .ok PyValue.none := rfl
example : dacite.from_dict Car (.str "plain text") = .error (.missingValueError "brand") := rfl
example : dacite.from_dict Car (.int 5) = .error (.typeError "argument is not iterable") := rfl
example : DataClassField.to_python Car (.dict (PyDict.ofList [("brand", .str "Ford")]))
    = .error (.validationError (uniformMsg Car) "invalid"
        (.dict (PyDict.ofList [("brand", .str "Ford")]))) := rfl
example : DataClassField.to_python Car
      (.dict (PyDict.ofList [("brand", .str "Ford"), ("model", .str "Focus"),
                             ("year", .str "x"), ("color", .str "red")]))
    = .error (.wrongTypeError "year") := rfl

/-! ## The Schema Inferencer (`_lookup_scalar`, `parse_type`, `generate_schema`) -/

/-- Python whitespace for `str.strip`. -/
def isPyWs : Char → Bool
  | ' ' => true
  | '\t' => true
  | '\n' => true
  | '\x0d' => true
  | '\x0b' => true
  | '\x0c' => true
  | _ => false

/-- Python `str.strip()`. -/
def pyStrip (s : String) : String :=
  String.mk ((((s.data.dropWhile isPyWs).reverse).dropWhile isPyWs).reverse)

/-- Python `c in s` for a single character. -/
def strContainsChar (s : String) (c : Char) : Bool :=
  s.data.contains c

/-- Python `s.split(sep)` for a one-character separator. -/
def splitOnChar (c : Char) : List Char → List (List Char)
  | [] => [[]]
  | d :: ds =>
      let r := splitOnChar c ds
      if d == c then [] :: r
      else
        match r with
        | x :: xs => (d :: x) :: xs
        | [] => [[d]]

/-- Python `s.startswith(p)`. -/
def strStartsWith (s p : String) : Bool :=
  p.data.isPrefixOf s.data

/-- Python `s[a:-1]`. -/
def sliceToLast (s : String) (a : Nat) : String :=
  String.mk ((s.data.drop a).dropLast)

/-- `_lookup_scalar` (fields.py lines 185-199); the `else` branch raises
`ValueError("Unhandled type: %s" % type_hint)`. -/
def lookup_scalar (typeHint : String) : Except PyErr String :=
  if typeHint = "str" then .ok "string"
  else if typeHint = "int" then .ok "number"
  else if typeHint = "float" then .ok "number"
  else if typeHint = "dict" then .ok "object"
  else if typeHint = "list" then .ok "array"
  else if typeHint = "bool" then .ok "boolean"
  else if typeHint = "None" then .ok "null"
  else .error (.valueError ("Unhandled type: " ++ typeHint))

/-- The list comprehension `[_lookup_scalar(t.strip()) for t in parts]`:
left to right, first failure raises. -/
def mapScalars : List String → Except PyErr (List String)
  | [] => .ok []
  | t :: ts =>
      match lookup_scalar (pyStrip t) with
      | .error e => .error e
      | .ok s =>
          match mapScalars ts with
          | .error e => .error e
          | .ok rest => .ok (s :: rest)

/-- Build the `anyOf` member list `[\x7b"type": t\x7d for t in types]`. -/
def anyOfFragments : List String → PyList
  | [] => .nil
  | t :: ts => .cons (.dict (.cons "type" (.str t) .nil)) (anyOfFragments ts)

/-- The `try` body of `parse_type` (fields.py lines 203-214). -/
def parse_typeBody (typeHint : String) : Except PyErr PyDict :=
  if strContainsChar typeHint '|' then
    match mapScalars ((splitOnChar '|' typeHint.data).map String.mk) with
    | .error e => .error e
    | .ok ts => .ok (.cons "anyOf" (.list (anyOfFragments ts)) .nil)
  else if strStartsWith typeHint "Optional[" then
    match lookup_scalar (sliceToLast typeHint 9) with
    | .error e => .error e
    | .ok s => .ok (.cons "type" (.str s) .nil)
  else if strStartsWith typeHint "List[" then
    match lookup_scalar (sliceToLast typeHint 5) with
    | .error e => .error e
    | .ok s =>
        .ok (.cons "type" (.str "array")
              (.cons "items" (.dict (.cons "type" (.str s) .nil)) .nil))
  else
    match lookup_scalar typeHint with
    | .error e => .error e
    | .ok s => .ok (.cons "type" (.str s) .nil)

/-- `parse_type` (fields.py lines 202-216): the body with `ValueError`
downgraded to the empty fragment `\x7b\x7d`; any other exception would
propagate. -/
def parse_type (typeHint : String) : Except PyErr PyDict :=
  match parse_typeBody typeHint with
  | .error (.valueError _) => .ok .nil
  | r => r

/-- The per-field loop of `generate_schema` (fields.py lines 227-237):
every field gets its `parse_type` fragment; a field whose `default` is not
`MISSING` gets that default written into the fragment; every field with
`init` set is appended to `required`. -/
def buildSchemaLoop (props : PyDict) (required : List String) :
    List DCField → Except PyErr (PyDict × List String)
  | [] => .ok (props, required)
  | f :: fs =>
      match parse_type (annStr f.ann) with
      | .error e => .error e
      | .ok frag =>
          let frag2 :=
            match f.default with
            | some d => pySet frag "default" d
            | Option.none => frag
          buildSchemaLoop (pySet props f.name (.dict frag2))
            (if f.init then required ++ [f.name] else required) fs

/-- `generate_schema` (fields.py lines 218-239). -/
def generate_schema (dc : DataClass) : Except PyErr PyValue :=
  match buildSchemaLoop .nil [] dc.fields with
  | .error e => .error e
  | .ok r =>
      .ok (.dict (PyDict.ofList
        [("$schema", .str "http://json-schema.org/draft-07/schema#"),
         ("type", .str "object"),
         ("properties", .dict r.1),
         ("required", .list (PyList.ofList (r.2.map PyValue.str))),
         ("additionalProperties", .bool false)]))

/-- The Schema Document as a value; `generate_schema` in fact never takes
the error fallback (proved below), so this is its result. -/
def schemaDoc (dc : DataClass) : PyValue :=
  match generate_schema dc with
  | .ok s => s
  | .error _ => .dict .nil

/-- The `properties` member of a Schema Document. -/
def schemaProps (s : PyValue) : PyDict :=
  match s with
  | .dict kvs =>
      (match pyLookup kvs "properties" with
       | some (.dict p) => p
       | _ => .nil)
  | _ => .nil

/-- The `required` member of a Schema Document. -/
def schemaRequired (s : PyValue) : PyList :=
  match s with
  | .dict kvs =>
      (match pyLookup kvs "required" with
       | some (.list l) => l
       | _ => .nil)
  | _ => .nil

/-- The `default` recorded in the fragment of the given property. -/
def fragDefault (props : PyDict) (k : String) : Option PyValue :=
  match pyLookup props k with
  | some (.dict frag) => pyLookup frag "default"
  | _ => Option.none

/-- A Record Type (under string annotations) with a defaulted field, used
to exercise the `default`/`required` interplay. -/
def Sample : DataClass :=
  { className := "Sample",
    fields := [
      { name := "a", ann := .strA "int", default := Option.none, init := true },
      { name := "b", ann := .strA "int", default := some (.int 3), init := true }] }

example : parse_type "int" = .ok (.cons "type" (.str "number") .nil) := rfl
example : parse_type "Optional[str]" = .ok (.cons "type" (.str "string") .nil) := rfl
example : parse_type "List[str]"
    = .ok (.cons "type" (.str "array")
        (.cons "items" (.dict (.cons "type" (.str "string") .nil)) .nil)) := rfl
example : parse_type "int | None"
    = .ok (.cons "anyOf" (.list (anyOfFragments ["number", "null"])) .nil) := rfl
example : parse_type "<class \x27int\x27>" = .ok .nil := rfl
example : pyLookup (schemaProps (schemaDoc Car)) "year" = some (.dict .nil) := rfl
example : pyListContains (schemaRequired (schemaDoc Car)) (.str "year") = true := rfl
example : schemaRequired (schemaDoc Sample) = PyList.ofList [.str "a", .str "b"] := rfl
example : fragDefault (schemaProps (schemaDoc Sample)) "b" = some (.int 3) := rfl
example : pyLookup (schemaProps (schemaDoc Sample)) "b"
    = some (.dict (.cons "type" (.str "number") (.cons "default" (.int 3) .nil))) := rfl

/-! ## Claim C4 -/

/-- C4 (code bug): a string that is not valid JSON, handed to
`DataClassField.to_python`, makes the low-level `json.JSONDecodeError`
propagate — `json.loads(value)` is outside the `try` block — instead of
surfacing only as a domain validation error as the spec requires. -/
theorem c4_malformed_string_propagates_decode_error :
    DataClassField.to_python Car (.str "\x7bnot json") = .error PyErr.jsonDecodeError := rfl

/-! ## Claim C5 -/

/-- C5 (code bug): for the example `Car` type, whose `year : int` field
annotation is the class `int` itself, `str(dc_field.type)` is
`"<class \x27int\x27>"`, which `_lookup_scalar` rejects, so
`generate_schema` degrades `properties.year` to the empty constraint
rather than the claimed `\x7b"type": "number"\x7d`; `"year"` does appear
in `required`. -/
theorem c5_car_year_schema_eval :
    pyLookup (schemaProps (schemaDoc Car)) "year" = some (.dict .nil)
    ∧ pyLookup (schemaProps (schemaDoc Car)) "year"
        ≠ some (.dict (.cons "type" (.str "number") .nil))
    ∧ pyListContains (schemaRequired (schemaDoc Car)) (.str "year") = true :=
  ⟨rfl, by decide, rfl⟩

/-! ## Claim C7 -/

/-- C7 counterexample: `to_python("   ")` does not return `None`; the
whitespace-only string is not in `empty_values`, reaches `json.loads`,
and raises the malformed-JSON `ValidationError`. -/
theorem c7_counterexample_whitespace :
    DataClassFormField.to_python false (.str "   ")
      = .error (.validationError invalidJsonMsg "invalid" (.str "   "))
    ∧ DataClassFormField.to_python false (.str "   ") ≠ .ok PyValue.none :=
  ⟨rfl, by decide⟩

/-- C7 (amended): with the field not disabled, `to_python("")` and
`to_python(None)` return `None`, but the whitespace-only `"   "` raises
the malformed-JSON validation error. -/
theorem c7_empty_value_normalization :
    DataClassFormField.to_python false (.str "") = .ok PyValue.none
    ∧ DataClassFormField.to_python false PyValue.none = .ok PyValue.none
    ∧ DataClassFormField.to_python false (.str "   ")
        = .error (.validationError invalidJsonMsg "invalid" (.str "   ")) :=
  ⟨rfl, rfl, rfl⟩

/-! ## Claim C10 -/

/-- C10 counterexample: the user-entered text `"\x7b\x7d"` is not an empty
value (only the container `\x7b\x7d` itself is), so `to_python` returns
the empty dict, which is distinguishable from `None`. -/
theorem c10_counterexample_text_empty_object :
    DataClassFormField.to_python false (.str "\x7b\x7d") = .ok (.dict PyDict.nil)
    ∧ DataClassFormField.to_python false (.str "\x7b\x7d") ≠ .ok PyValue.none :=
  ⟨rfl, by decide⟩

/-- C10 (amended): every empty container input (`\x7b\x7d`, `[]`, `()`)
normalizes to `None` because empty containers are in the field's
empty-value set, but the textual input `"\x7b\x7d"` parses to the empty
dict and is returned as such. -/
theorem c10_empty_container_normalization :
    DataClassFormField.to_python false (.dict PyDict.nil) = .ok PyValue.none
    ∧ DataClassFormField.to_python false (.list PyList.nil) = .ok PyValue.none
    ∧ DataClassFormField.to_python false (.tuple PyList.nil) = .ok PyValue.none
    ∧ DataClassFormField.to_python false (.str "\x7b\x7d") = .ok (.dict PyDict.nil) :=
  ⟨rfl, rfl, rfl, rfl⟩

/-! ## Claim C8 -/

/-- C8 counterexample: the empty string is not syntactically valid JSON,
yet `to_python("")` returns `None` instead of raising the malformed-input
validation error, because the empty-value check precedes parsing. -/
theorem c8_counterexample_empty_string :
    json.loads "" = Option.none
    ∧ DataClassFormField.to_python false (.str "") = .ok PyValue.none :=
  ⟨rfl, rfl⟩

/-- C8 (amended): every non-empty string rejected by the JSON parser makes
`DataClassFormField.to_python` raise the field-level validation error with
the fixed message and the raw string preserved in the error params; the
decode error itself never escapes. -/
theorem c8_invalid_json_raises_validation_error (s : String)
    (hne : s ≠ "") (hbad : json.loads s = Option.none) :
    DataClassFormField.to_python false (.str s)
      = .error (.validationError invalidJsonMsg "invalid" (.str s)) := by
  have hbeq : (s == "") = false := beq_eq_false_iff_ne.mpr hne
  have hemp : isEmptyValue (.str s) = false := by
    simp [isEmptyValue, emptyValues, pyEq, hbeq]
  simp [DataClassFormField.to_python, hemp, hbad]

/-- Witness for C8 at the spec's example input. -/
theorem c8_witness :
    ("\x7bnot json" ≠ "" ∧ json.loads "\x7bnot json" = Option.none)
    ∧ DataClassFormField.to_python false (.str "\x7bnot json")
        = .error (.validationError invalidJsonMsg "invalid" (.str "\x7bnot json")) :=
  ⟨⟨by decide, rfl⟩,
   c8_invalid_json_raises_validation_error "\x7bnot json" (by decide) rfl⟩

/-! ## Claim C9 -/

/-- C9 counterexample: with `initial = (1, 2)` (a tuple) and
`data = "[1,2]"`, the canonical sorted-keys serializations of the
normalized initial and of `to_python(data)` coincide (`"[1, 2]"`), yet
`has_changed` returns `True`, because the generic check already reported a
change (`(1,2) != [1,2]` in Python). -/
theorem c9_counterexample_tuple_vs_list :
    DataClassFormField.to_python false (.str "[1,2]")
      = .ok (.list (PyList.ofList [.int 1, .int 2]))
    ∧ json.dumps true (.tuple (PyList.ofList [.int 1, .int 2]))
        = json.dumps true (.list (PyList.ofList [.int 1, .int 2]))
    ∧ DataClassFormField.has_changed false
        (.tuple (PyList.ofList [.int 1, .int 2])) (.str "[1,2]") = .ok true :=
  ⟨rfl, rfl, rfl⟩

/-- C9 (amended): whenever the generic change check reports unchanged,
`has_changed` returns `False` exactly when the canonical sorted-keys JSON
serialization of the initial value equals that of `to_python(data)` — in
particular, a mapping initial against textual data with the same pairs in
another key order yields `False`. -/
theorem c9_canonical_serialization_comparison (initial data d : PyValue) (s1 s2 : String)
    (hsup : forms.Field.has_changed false initial data = .ok false)
    (hd : DataClassFormField.to_python false data = .ok d)
    (h1 : json.dumps true initial = .ok s1)
    (h2 : json.dumps true d = .ok s2) :
    DataClassFormField.has_changed false initial data = .ok (s1 != s2) := by
  simp [DataClassFormField.has_changed, hsup, hd, h1, h2, Functor.map, Except.map,
    Bind.bind, Except.bind, pure, Except.pure]

/-- Witness for C9 at the spec's reordered-keys example. -/
theorem c9_witness :
    forms.Field.has_changed false (.dict (PyDict.ofList [("a", .int 1), ("b", .int 2)]))
        (.str "\x7b\"b\": 2, \"a\": 1\x7d") = .ok false
    ∧ DataClassFormField.has_changed false
        (.dict (PyDict.ofList [("a", .int 1), ("b", .int 2)]))
        (.str "\x7b\"b\": 2, \"a\": 1\x7d") = .ok false :=
  ⟨rfl,
   c9_canonical_serialization_comparison
     (.dict (PyDict.ofList [("a", .int 1), ("b", .int 2)]))
     (.str "\x7b\"b\": 2, \"a\": 1\x7d")
     (.dict (PyDict.ofList [("b", .int 2), ("a", .int 1)]))
     "\x7b\"a\": 1, \"b\": 2\x7d" "\x7b\"a\": 1, \"b\": 2\x7d"
     rfl rfl rfl rfl⟩

/-! ## Claim C3 -/

/-- Discriminator: did the operation raise a `ValidationError`? -/
def raisedValidationError : Except PyErr PyValue → Bool
  | .error (.validationError _ _ _) => true
  | _ => false

/-- C3 counterexample: on the read-from-storage path, a stored mapping
missing required fields makes `DataClassField.from_db_value` let dacite's
`MissingValueError` escape — there is no exception handling there — so no
uniform validation error is raised. -/
theorem c3_counterexample_from_db_value :
    DataClassField.from_db_value Car (some "\x7b\"brand\": \"Ford\"\x7d")
      = .error (.missingValueError "model")
    ∧ raisedValidationError
        (DataClassField.from_db_value Car (some "\x7b\"brand\": \"Ford\"\x7d")) = false :=
  ⟨rfl, rfl⟩

/-- C3 (amended): on the `to_python` path, a hydration failure from missing
required fields (`MissingValueError`) is re-raised as the uniform
validation error "Value must be of type <RecordType name>" carrying the
offending value, but a structural cast failure (`WrongTypeError`)
propagates uncaught; on the `from_db_value` path, stored JSON `null` (like
a NULL column) is returned as `None` without hydration, and every
hydration failure for any other stored value propagates as the underlying
dacite exception. -/
theorem c3_hydration_error_reporting (dc : DataClass) :
    (∀ (d : PyDict) (f : String),
        dacite.from_dict dc (.dict d) = .error (.missingValueError f) →
        DataClassField.to_python dc (.dict d)
          = .error (.validationError (uniformMsg dc) "invalid" (.dict d)))
    ∧ (∀ (d : PyDict) (f : String),
        dacite.from_dict dc (.dict d) = .error (.wrongTypeError f) →
        DataClassField.to_python dc (.dict d) = .error (.wrongTypeError f))
    ∧ (∀ (s : String) (v : PyValue) (e : PyErr),
        JSONField.from_db_value (some s) = some v →
        pyIsNone v = false →
        dacite.from_dict dc v = .error e →
        DataClassField.from_db_value dc (some s) = .error e) := by
  refine ⟨fun d f h => ?_, fun d f h => ?_, fun s v e h1 hv h2 => ?_⟩
  · simp [DataClassField.to_python, isInstanceOf, DataClassField.hydrate, h]
  · simp [DataClassField.to_python, isInstanceOf, DataClassField.hydrate, h]
  · simp [DataClassField.from_db_value, h1, hv, h2]

/-- Witness for C3 at concrete `Car` inputs: a mapping missing `model`
(uniform validation error on `to_python`, raw dacite error on
`from_db_value`) and a mapping with a wrongly-typed `year` (uncaught
`WrongTypeError`). -/
theorem c3_witness :
    (dacite.from_dict Car (.dict (PyDict.ofList [("brand", .str "Ford")]))
        = .error (.missingValueError "model")
      ∧ DataClassField.to_python Car (.dict (PyDict.ofList [("brand", .str "Ford")]))
          = .error (.validationError (uniformMsg Car) "invalid"
              (.dict (PyDict.ofList [("brand", .str "Ford")]))))
    ∧ (dacite.from_dict Car
          (.dict (PyDict.ofList [("brand", .str "Ford"), ("model", .str "Focus"),
                                 ("year", .str "x"), ("color", .str "red")]))
        = .error (.wrongTypeError "year")
      ∧ DataClassField.to_python Car
          (.dict (PyDict.ofList [("brand", .str "Ford"), ("model", .str "Focus"),
                                 ("year", .str "x"), ("color", .str "red")]))
        = .error (.wrongTypeError "year"))
    ∧ DataClassField.from_db_value Car (some "\x7b\"brand\": \"Ford\"\x7d")
        = .error (.missingValueError "model") :=
  ⟨⟨rfl, (c3_hydration_error_reporting Car).1 (PyDict.ofList [("brand", .str "Ford")]) "model" rfl⟩,
   ⟨rfl, (c3_hydration_error_reporting Car).2.1
      (PyDict.ofList [("brand", .str "Ford"), ("model", .str "Focus"),
                      ("year", .str "x"), ("color", .str "red")]) "year" rfl⟩,
   (c3_hydration_error_reporting Car).2.2 "\x7b\"brand\": \"Ford\"\x7d"
     (.dict (PyDict.ofList [("brand", .str "Ford")])) (.missingValueError "model") rfl rfl rfl⟩

/-! ## Schema lemmas (shared by C2 and C6) -/

theorem lookup_scalar_error_is_valueError (h : String) (e : PyErr)
    (he : lookup_scalar h = .error e) : ∃ m, e = PyErr.valueError m := by
  unfold lookup_scalar at he
  split_ifs at he
  all_goals first
    | exact Except.noConfusion he
    | exact ⟨_, (Except.error.inj he).symm⟩

theorem mapScalars_error_is_valueError (ts : List String) (e : PyErr)
    (he : mapScalars ts = .error e) : ∃ m, e = PyErr.valueError m := by
  induction ts generalizing e with
  | nil => exact Except.noConfusion he
  | cons t ts ih =>
      rw [mapScalars] at he
      cases hls : lookup_scalar (pyStrip t) with
      | error e2 =>
          rw [hls] at he
          injection he with h2
          subst h2
          exact lookup_scalar_error_is_valueError _ _ hls
      | ok s =>
          rw [hls] at he
          cases hms : mapScalars ts with
          | error e3 =>
              rw [hms] at he
              injection he with h2
              subst h2
              exact ih e3 hms
          | ok rest =>
              rw [hms] at he
              exact Except.noConfusion he

theorem parse_typeBody_error_is_valueError (h : String) (e : PyErr)
    (he : parse_typeBody h = .error e) : ∃ m, e = PyErr.valueError m := by
  unfold parse_typeBody at he
  split_ifs at he
  · cases hms : mapScalars ((splitOnChar '|' h.data).map String.mk) with
    | error e2 =>
        rw [hms] at he
        injection he with h2
        subst h2
        exact mapScalars_error_is_valueError _ _ hms
    | ok ts => rw [hms] at he; exact Except.noConfusion he
  · cases hls : lookup_scalar (sliceToLast h 9) with
    | error e2 =>
        rw [hls] at he
        injection he with h2
        subst h2
        exact lookup_scalar_error_is_valueError _ _ hls
    | ok s => rw [hls] at he; exact Except.noConfusion he
  · cases hls : lookup_scalar (sliceToLast h 5) with
    | error e2 =>
        rw [hls] at he
        injection he with h2
        subst h2
        exact lookup_scalar_error_is_valueError _ _ hls
    | ok s => rw [hls] at he; exact Except.noConfusion he
  · cases hls : lookup_scalar h with
    | error e2 =>
        rw [hls] at he
        injection he with h2
        subst h2
        exact lookup_scalar_error_is_valueError _ _ hls
    | ok s => rw [hls] at he; exact Except.noConfusion he

/-- The fragment `parse_type` returns; by `parse_type_ok` it never raises. -/
def fragBase (h : String) : PyDict :=
  match parse_typeBody h with
  | .ok fr => fr
  | .error _ => .nil

theorem parse_type_ok (h : String) : parse_type h = .ok (fragBase h) := by
  unfold parse_type fragBase
  cases hb : parse_typeBody h with
  | ok fr => rfl
  | error e =>
      obtain ⟨m, hm⟩ := parse_typeBody_error_is_valueError h e hb
      subst hm
      rfl

/-- The fragment finally stored for a field, with its default written in. -/
def fragOf (f : DCField) : PyDict :=
  match f.default with
  | some d => pySet (fragBase (annStr f.ann)) "default" d
  | Option.none => fragBase (annStr f.ann)

/-- One step of the `generate_schema` loop on the properties dict. -/
def stepProp (acc : PyDict) (f : DCField) : PyDict :=
  pySet acc f.name (.dict (fragOf f))

/-- The names the loop appends to `required`: the `init` fields, in
declaration order. -/
def reqNames (fs : List DCField) : List String :=
  (fs.filter (fun f => f.init)).map (fun f => f.name)

theorem buildSchemaLoop_eq (fs : List DCField) :
    ∀ props required, buildSchemaLoop props required fs
      = .ok (fs.foldl stepProp props, required ++ reqNames fs) := by
  induction fs with
  | nil => intro props required; simp [buildSchemaLoop, reqNames]
  | cons f fs ih =>
      intro props required
      rw [buildSchemaLoop, parse_type_ok (annStr f.ann)]
      show buildSchemaLoop (pySet props f.name (.dict (fragOf f)))
          (if f.init then required ++ [f.name] else required) fs = _
      rw [ih]
      cases hfi : f.init <;>
        simp [reqNames, stepProp, List.filter_cons, hfi]

theorem generate_schema_eq (dc : DataClass) :
    generate_schema dc
      = .ok (.dict (PyDict.ofList
          [("$schema", .str "http://json-schema.org/draft-07/schema#"),
           ("type", .str "object"),
           ("properties", .dict (dc.fields.foldl stepProp .nil)),
           ("required", .list (PyList.ofList ((reqNames dc.fields).map PyValue.str))),
           ("additionalProperties", .bool false)])) := by
  rw [generate_schema, buildSchemaLoop_eq]
  simp

theorem schemaDoc_eq (dc : DataClass) :
    schemaDoc dc
      = .dict (PyDict.ofList
          [("$schema", .str "http://json-schema.org/draft-07/schema#"),
           ("type", .str "object"),
           ("properties", .dict (dc.fields.foldl stepProp .nil)),
           ("required", .list (PyList.ofList ((reqNames dc.fields).map PyValue.str))),
           ("additionalProperties", .bool false)]) := by
  rw [schemaDoc, generate_schema_eq]

theorem schemaRequired_doc (dc : DataClass) :
    schemaRequired (schemaDoc dc) = PyList.ofList ((reqNames dc.fields).map PyValue.str) := by
  rw [schemaDoc_eq]
  rfl

theorem schemaProps_doc (dc : DataClass) :
    schemaProps (schemaDoc dc) = dc.fields.foldl stepProp .nil := by
  rw [schemaDoc_eq]
  rfl

theorem pyLookup_pySet_self (d : PyDict) (k : String) (v : PyValue) :
    pyLookup (pySet d k v) k = some v := by
  match d with
  | .nil => simp [pySet, pyLookup]
  | .cons k0 v0 rest =>
      by_cases h : k0 = k
      · subst h; simp [pySet, pyLookup]
      · simp [pySet, pyLookup, h, pyLookup_pySet_self rest k v]
termination_by structural d

theorem pyLookup_pySet_ne (d : PyDict) (k k2 : String) (v : PyValue) (h : k2 ≠ k) :
    pyLookup (pySet d k2 v) k = pyLookup d k := by
  match d with
  | .nil => simp [pySet, pyLookup, h]
  | .cons k0 v0 rest =>
      by_cases h0 : k0 = k2
      · subst h0; simp [pySet, pyLookup, h]
      · simp only [pySet, if_neg h0, pyLookup]
        by_cases hk : k0 = k <;> simp [hk, pyLookup_pySet_ne rest k k2 v h]
termination_by structural d

theorem foldl_stepProp_notin (fs : List DCField) (k : String)
    (hk : k ∉ fs.map DCField.name) :
    ∀ acc, pyLookup (fs.foldl stepProp acc) k = pyLookup acc k := by
  induction fs with
  | nil => intro acc; rfl
  | cons f fs ih =>
      intro acc
      rw [List.map_cons, List.mem_cons] at hk
      push_neg at hk
      rw [List.foldl_cons, ih hk.2]
      exact pyLookup_pySet_ne acc k f.name _ (Ne.symm hk.1)

theorem foldl_stepProp_mem (fs : List DCField) (f : DCField)
    (hnd : (fs.map DCField.name).Nodup) (hf : f ∈ fs) :
    ∀ acc, pyLookup (fs.foldl stepProp acc) f.name = some (.dict (fragOf f)) := by
  induction fs with
  | nil => cases hf
  | cons g fs ih =>
      intro acc
      rw [List.map_cons, List.nodup_cons] at hnd
      rw [List.foldl_cons]
      rcases List.mem_cons.mp hf with hfg | hmem
      · subst hfg
        rw [foldl_stepProp_notin fs f.name hnd.1]
        exact pyLookup_pySet_self acc f.name _
      · exact ih hnd.2 hmem _

theorem foldl_stepProp_isSome (fs : List DCField) (n : String) :
    ∀ acc, (n ∈ fs.map DCField.name ∨ (pyLookup acc n).isSome) →
      (pyLookup (fs.foldl stepProp acc) n).isSome := by
  induction fs with
  | nil =>
      intro acc h
      rcases h with h | h
      · simp at h
      · exact h
  | cons g fs ih =>
      intro acc h
      rw [List.foldl_cons]
      apply ih
      rcases h with h | h
      · rw [List.map_cons, List.mem_cons] at h
        rcases h with h | h
        · right
          subst h
          rw [stepProp, pyLookup_pySet_self]
          rfl
        · left; exact h
      · right
        by_cases hng : g.name = n
        · subst hng
          rw [stepProp, pyLookup_pySet_self]
          rfl
        · rw [stepProp, pyLookup_pySet_ne _ _ _ _ hng]
          exact h

/-! ## Claim C2 -/

/-- C2 counterexample: on the `Sample` type, whose field `b` has default
`3` (and `init=True`), the schema's `required` list contains `"b"`, so it
is not "exactly the fields that lack a default value" (which would be
`["a"]`) — the loop appends every field whose `init` flag is set. -/
theorem c2_counterexample_defaulted_field_required :
    pyListContains (schemaRequired (schemaDoc Sample)) (.str "b") = true
    ∧ (Sample.fields.filter (fun f => f.default.isNone)).map (fun f => f.name) = ["a"]
    ∧ schemaRequired (schemaDoc Sample) ≠ PyList.ofList [PyValue.str "a"] :=
  ⟨rfl, rfl, by decide⟩

/-- C2 (amended): the `required` list of `generate_schema`'s document
contains exactly the fields whose `init` flag is set, in field-declaration
order (for a plain dataclass this is every field, defaulted or not), and
every field that has a default value carries that default as the `default`
key of its schema fragment. -/
theorem c2_required_is_init_fields_and_defaults_kept (dc : DataClass)
    (hnd : (dc.fields.map DCField.name).Nodup) :
    schemaRequired (schemaDoc dc)
      = PyList.ofList (((dc.fields.filter (fun f => f.init)).map (fun f => f.name)).map PyValue.str)
    ∧ ∀ f ∈ dc.fields, ∀ d, f.default = some d →
        fragDefault (schemaProps (schemaDoc dc)) f.name = some d := by
  constructor
  · exact schemaRequired_doc dc
  · intro f hf d hd
    rw [fragDefault, schemaProps_doc, foldl_stepProp_mem dc.fields f hnd hf]
    show pyLookup (fragOf f) "default" = some d
    rw [fragOf, hd]
    exact pyLookup_pySet_self _ _ _

/-- Witness for C2 at the `Sample` type and its defaulted field `b`. -/
theorem c2_witness :
    (Sample.fields.map DCField.name).Nodup
    ∧ schemaRequired (schemaDoc Sample)
        = PyList.ofList (((Sample.fields.filter (fun f => f.init)).map (fun f => f.name)).map PyValue.str)
    ∧ fragDefault (schemaProps (schemaDoc Sample)) "b" = some (.int 3) :=
  ⟨by decide,
   (c2_required_is_init_fields_and_defaults_kept Sample (by decide)).1,
   (c2_required_is_init_fields_and_defaults_kept Sample (by decide)).2
     { name := "b", ann := .strA "int", default := some (.int 3), init := true }
     (by decide) (.int 3) rfl⟩

/-! ## Claim C6 -/

/-- C6: `generate_schema` never raises — for every Record Type it returns
the Schema Document — because a failure to map a field's annotation is a
`ValueError` that `parse_type` downgrades to the empty constraint
`\x7b\x7d`, and the rest of the document is still produced: every declared
field name has a fragment in `properties`. -/
theorem c6_generate_schema_never_raises :
    (∀ dc : DataClass, generate_schema dc = .ok (schemaDoc dc))
    ∧ (∀ (h : String) (e : PyErr), parse_typeBody h = .error e →
        parse_type h = .ok PyDict.nil)
    ∧ (∀ (dc : DataClass) (n : String), n ∈ dc.fields.map DCField.name →
        (pyLookup (schemaProps (schemaDoc dc)) n).isSome = true) := by
  refine ⟨fun dc => ?_, fun h e he => ?_, fun dc n hn => ?_⟩
  · rw [generate_schema_eq, schemaDoc_eq]
  · obtain ⟨m, hm⟩ := parse_typeBody_error_is_valueError h e he
    subst hm
    rw [parse_type, he]
  · rw [schemaProps_doc]
    exact foldl_stepProp_isSome dc.fields n PyDict.nil (Or.inl hn)

/-- Witness for C6 at the `Car` type, whose every annotation fails the
scalar lookup. -/
theorem c6_witness :
    generate_schema Car = .ok (schemaDoc Car)
    ∧ (parse_typeBody "<class \x27int\x27>"
         = .error (.valueError "Unhandled type: <class \x27int\x27>")
       ∧ parse_type "<class \x27int\x27>" = .ok PyDict.nil)
    ∧ ("year" ∈ Car.fields.map DCField.name
       ∧ (pyLookup (schemaProps (schemaDoc Car)) "year").isSome = true) :=
  ⟨c6_generate_schema_never_raises.1 Car,
   ⟨rfl, c6_generate_schema_never_raises.2.1 "<class \x27int\x27>"
      (.valueError "Unhandled type: <class \x27int\x27>") rfl⟩,
   ⟨by decide, c6_generate_schema_never_raises.2.2 Car "year" (by decide)⟩⟩

/-! ## Claim C1 -/

mutual
/-- Values that round-trip through JSON-primitive types: `None`, booleans,
integers, strings, and lists/dicts thereof. -/
def isJsonPrim (v : PyValue) : Bool :=
  match v with
  | .none => true
  | .bool _ => true
  | .int _ => true
  | .str _ => true
  | .list xs => isJsonPrimList xs
  | .dict kvs => isJsonPrimDict kvs
  | _ => false
termination_by structural v

def isJsonPrimList (xs : PyList) : Bool :=
  match xs with
  | .nil => true
  | .cons v rest => isJsonPrim v && isJsonPrimList rest
termination_by structural xs

def isJsonPrimDict (kvs : PyDict) : Bool :=
  match kvs with
  | .nil => true
  | .cons _ v rest => isJsonPrim v && isJsonPrimDict rest
termination_by structural kvs
end

mutual
theorem asdict_prim (v : PyValue) (h : isJsonPrim v = true) : dataclasses.asdict v = v :=
  match v, h with
  | .none, _ => rfl
  | .bool _, _ => rfl
  | .int _, _ => rfl
  | .str _, _ => rfl
  | .jsonString _, h => nomatch h
  | .tuple _, h => nomatch h
  | .dcInst _ _, h => nomatch h
  | .list xs, h => congrArg PyValue.list (asdictList_prim xs h)
  | .dict kvs, h => congrArg PyValue.dict (asdictDict_prim kvs h)
termination_by structural v

theorem asdictList_prim (xs : PyList) (h : isJsonPrimList xs = true) : asdictList xs = xs :=
  match xs, h with
  | .nil, _ => rfl
  | .cons v rest, h => by
      rw [isJsonPrimList, Bool.and_eq_true] at h
      rw [asdictList, asdict_prim v h.1, asdictList_prim rest h.2]
termination_by structural xs

theorem asdictDict_prim (kvs : PyDict) (h : isJsonPrimDict kvs = true) : asdictDict kvs = kvs :=
  match kvs, h with
  | .nil, _ => rfl
  | .cons k v rest, h => by
      rw [isJsonPrimDict, Bool.and_eq_true] at h
      rw [asdictDict, asdict_prim v h.1, asdictDict_prim rest h.2]
termination_by structural kvs
end

/-- A well-formed, well-typed Record Instance body for a field list: the
pairs carry exactly the declared field names in declaration order, each
value satisfies the field's type annotation, and each value is
JSON-primitive-representable. -/
def fieldsMatch : List DCField → PyDict → Bool
  | [], .nil => true
  | f :: fs, .cons k v rest =>
      k == f.name && annMatches f.ann v && isJsonPrim v && fieldsMatch fs rest
  | _, _ => false

theorem fieldsMatch_keys (fs : List DCField) (kvs : PyDict)
    (h : fieldsMatch fs kvs = true) : pyKeys kvs = fs.map DCField.name :=
  match fs, kvs with
  | [], .nil => rfl
  | [], .cons _ _ _ => absurd h (by simp [fieldsMatch])
  | _ :: _, .nil => absurd h (by simp [fieldsMatch])
  | f :: fs, .cons k v rest => by
      rw [fieldsMatch] at h
      simp only [Bool.and_eq_true, beq_iff_eq] at h
      obtain ⟨⟨⟨hk, _⟩, _⟩, hrest⟩ := h
      rw [pyKeys, List.map_cons, hk, fieldsMatch_keys fs rest hrest]

theorem fieldsMatch_prim (fs : List DCField) (kvs : PyDict)
    (h : fieldsMatch fs kvs = true) : isJsonPrimDict kvs = true :=
  match fs, kvs with
  | [], .nil => rfl
  | [], .cons _ _ _ => absurd h (by simp [fieldsMatch])
  | _ :: _, .nil => absurd h (by simp [fieldsMatch])
  | f :: fs, .cons k v rest => by
      rw [fieldsMatch] at h
      simp only [Bool.and_eq_true, beq_iff_eq] at h
      obtain ⟨⟨⟨_, _⟩, hp⟩, hrest⟩ := h
      rw [isJsonPrimDict, Bool.and_eq_true]
      exact ⟨hp, fieldsMatch_prim fs rest hrest⟩

/-- Membership of a key/value pair in a dict. -/
def dictMem : PyDict → String → PyValue → Prop
  | .nil, _, _ => False
  | .cons k v rest, k2, v2 => (k = k2 ∧ v = v2) ∨ dictMem rest k2 v2

theorem dictMem_key (d : PyDict) (k : String) (v : PyValue) (h : dictMem d k v) :
    k ∈ pyKeys d :=
  match d, h with
  | .cons k0 v0 rest, h => by
      rcases h with ⟨hk, _⟩ | h
      · rw [pyKeys, ← hk]; exact List.mem_cons_self _ _
      · exact List.mem_cons_of_mem _ (dictMem_key rest k v h)
termination_by structural d

theorem lookup_of_distinct_mem (d : PyDict) (k : String) (v : PyValue)
    (hnd : (pyKeys d).Nodup) (h : dictMem d k v) : pyLookup d k = some v :=
  match d, h with
  | .cons k0 v0 rest, h => by
      rw [pyKeys, List.nodup_cons] at hnd
      rcases h with ⟨hk, hv⟩ | h
      · subst hk; subst hv; simp [pyLookup]
      · have hne : k0 ≠ k := fun he => hnd.1 (he ▸ dictMem_key rest k v h)
        rw [pyLookup, if_neg hne]
        exact lookup_of_distinct_mem rest k v hnd.2 h
termination_by structural d

/-- `dacite`'s field loop succeeds on a well-typed instance body and
reproduces it exactly: each declared field finds its own value (by the
lookup hypothesis), type-checks, and is re-emitted in declaration order. -/
theorem daciteBuild_of_match (fs : List DCField) (kvs kvsAll : PyDict)
    (hm : fieldsMatch fs kvs = true)
    (hlook : ∀ k v, dictMem kvs k v → pyLookup kvsAll k = some v) :
    daciteBuild (.dict kvsAll) fs = .ok kvs :=
  match fs, kvs, hm with
  | [], .nil, _ => rfl
  | [], .cons _ _ _, hm => absurd hm (by simp [fieldsMatch])
  | _ :: _, .nil, hm => absurd hm (by simp [fieldsMatch])
  | f :: fs, .cons k v rest, hm => by
      rw [fieldsMatch] at hm
      simp only [Bool.and_eq_true, beq_iff_eq] at hm
      obtain ⟨⟨⟨hk, ha⟩, _⟩, hrest⟩ := hm
      subst hk
      have hl : pyLookup kvsAll f.name = some v := hlook f.name v (Or.inl ⟨rfl, rfl⟩)
      rw [daciteBuild]
      simp only [pyInOp, pyGetStrItem, hl, Option.isSome_some, ha, if_true]
      rw [daciteBuild_of_match fs rest kvsAll hrest
            (fun k2 v2 h2 => hlook k2 v2 (Or.inr h2))]
      rfl

/-- C1: a Record Instance whose fields are well-typed and
JSON-primitive-representable survives the outbound/inbound round trip:
`get_prep_value` hands the parent exactly `asdict(r)`, and hydrating
`asdict(r)` back through `DataClassField.to_python` (which runs
`dacite.from_dict`) returns an instance equal to `r`. -/
theorem c1_round_trip (dc : DataClass) (kvs : PyDict)
    (hm : fieldsMatch dc.fields kvs = true)
    (hnd : (dc.fields.map DCField.name).Nodup) :
    DataClassField.get_prep_value dc (.dcInst dc.className kvs)
      = JSONField.get_prep_value (dataclasses.asdict (.dcInst dc.className kvs))
    ∧ DataClassField.to_python dc (dataclasses.asdict (.dcInst dc.className kvs))
      = .ok (.dcInst dc.className kvs) := by
  have hkeys : pyKeys kvs = dc.fields.map DCField.name := fieldsMatch_keys _ _ hm
  have hkvsnd : (pyKeys kvs).Nodup := hkeys ▸ hnd
  have hasd : asdictDict kvs = kvs := asdictDict_prim kvs (fieldsMatch_prim _ _ hm)
  have hbuild : daciteBuild (.dict kvs) dc.fields = .ok kvs :=
    daciteBuild_of_match dc.fields kvs kvs hm
      (fun k v h => lookup_of_distinct_mem kvs k v hkvsnd h)
  constructor
  · simp [DataClassField.get_prep_value, isInstanceOf]
  · rw [dataclasses.asdict, hasd]
    simp [DataClassField.to_python, isInstanceOf, DataClassField.hydrate,
      dacite.from_dict, hbuild, Except.map]

/-- Witness for C1 at the spec's end-to-end example
`Car(brand="Ford", model="Focus", year=2020, color="red")`. -/
theorem c1_witness :
    fieldsMatch Car.fields fordFocus = true
    ∧ (Car.fields.map DCField.name).Nodup
    ∧ DataClassField.to_python Car (dataclasses.asdict (.dcInst Car.className fordFocus))
        = .ok (.dcInst Car.className fordFocus) :=
  ⟨rfl, by decide, (c1_round_trip Car fordFocus rfl (by decide)).2⟩
